import Mathlib

/-!
Verification of the failover relay in `src/server.js`.

The relay accepts two proxied operations (record fetch and contact-list
submission), tries a fixed list of upstream hosts in order starting from
the last host that succeeded (the "pinned" host), and returns the first
successful response; if every host fails it returns a 502 with a list of
attempt records.

Network I/O is abstracted by an oracle `String → UpstreamOutcome` giving,
for each base URL, what the upstream attempt against it yields during the
relay call under consideration.  The process-wide mutable `pinnedBaseUrl`
is modelled by explicit state passing: each proxied operation takes the
pinned state before the call and its result carries the pinned state after
the call, together with the list of bases that were actually contacted.
-/

namespace Relay

/-- The fixed, hardcoded list of upstream base URLs (`BASE_URLS` in the
source), immutable and fixed at startup. -/
def BASE_URLS : List String :=
  [ "https://api.sleekflow.io",
    "https://sleekflow-core-app-eus-production.azurewebsites.net",
    "https://sleekflow-core-app-seas-production.azurewebsites.net",
    "https://sleekflow-core-app-weu-production.azurewebsites.net",
    "https://sleekflow-core-app-uaen-production.azurewebsites.net" ]

/-- Initial value of the process-wide pinned host
(`let pinnedBaseUrl = null`). -/
def pinnedBaseUrlInit : Option String := none

/-- `getBasesToTry` from the source: `if (!pinnedBaseUrl) return BASE_URLS;
return [pinnedBaseUrl, ...BASE_URLS.filter(base => base !== pinnedBaseUrl)]`.
JavaScript truthiness makes the empty string behave like `null`, hence the
extra test. -/
def getBasesToTry (pinnedBaseUrl : Option String) : List String :=
  match pinnedBaseUrl with
  | none => BASE_URLS
  | some p => if p = "" then BASE_URLS
              else p :: BASE_URLS.filter (fun base => base ≠ p)

/-- What one outbound attempt against a base yields: an HTTP response
(any status) or a transport-level error (the rejected promise /
thrown error path in the source). -/
inductive UpstreamOutcome where
  | response (status : Nat) (body : String)
  | transportError (msg : String)
deriving DecidableEq, Repr

/-- One entry of the `errors` array collected by the failover loops:
either `{ base, status, body }` for an upstream rejection or
`{ base, error }` for a transport failure. -/
inductive AttemptInfo where
  | rejected (status : Nat) (body : String)
  | transport (msg : String)
deriving DecidableEq, Repr

structure Attempt where
  base : String
  info : AttemptInfo
deriving DecidableEq, Repr

/-- The attempt record the loop pushes for base `b` when it fails
(`errors.push({ base, status, body })` / `errors.push({ base, error })`). -/
def attemptFor (oracle : String → UpstreamOutcome) (b : String) : Attempt :=
  match oracle b with
  | .response st body => ⟨b, .rejected st body⟩
  | .transportError msg => ⟨b, .transport msg⟩

/-- The body the relay sends back to its client: a raw upstream body,
the structured `{"error": "All base URLs failed", "attempts": [...]}`
object (the source serializes it with `JSON.stringify`), or a structured
`{"error": msg}` object used for validation and internal errors. -/
inductive ClientBody where
  | raw (s : String)
  | allFailed (attempts : List Attempt)
  | jsonError (msg : String)
deriving DecidableEq, Repr

/-- Result of a relay operation: HTTP status and body for the client,
the pinned-host state after the call, and the bases contacted (in order). -/
structure RelayResult where
  status : Nat
  body : ClientBody
  pinnedAfter : Option String
  contacted : List String
deriving DecidableEq, Repr

/-- Outcome of the failover loop shared by both proxies. -/
inductive LoopOut where
  | success (status : Nat) (body : String) (base : String) (contacted : List String)
  | exhausted (errors : List Attempt) (contacted : List String)
deriving DecidableEq, Repr

/-- The `for (const base of basesToTry)` loop common to
`fetchViaAvailableBase` and `postViaAvailableBase`, parameterized by the
success predicate (`resp.status === 200` vs `resp.ok`).  `errors` and
`contacted` accumulate the attempt records and the bases contacted so far. -/
def tryBases (succ : Nat → Bool) (oracle : String → UpstreamOutcome)
    (errors : List Attempt) (contacted : List String) :
    List String → LoopOut
  | [] => .exhausted errors contacted
  | base :: rest =>
    match oracle base with
    | .response st body =>
      if succ st then .success st body base (contacted ++ [base])
      else tryBases succ oracle (errors ++ [⟨base, .rejected st body⟩])
        (contacted ++ [base]) rest
    | .transportError msg =>
      tryBases succ oracle (errors ++ [⟨base, .transport msg⟩])
        (contacted ++ [base]) rest

/-- Success predicate of the record-fetch proxy: `resp.status === 200`. -/
def is200 (st : Nat) : Bool := st == 200

/-- Success predicate of the contact-list proxy: `resp.ok`, i.e. any 2xx. -/
def is2xx (st : Nat) : Bool := 200 ≤ st && st < 300

/-- `fetchViaAvailableBase`: try the bases from `getBasesToTry`; the first
base whose response has status exactly 200 wins and becomes the pinned
host; on exhaustion return status 502 with the collected attempts and
leave the pinned host unchanged. -/
def fetchViaAvailableBase (oracle : String → UpstreamOutcome)
    (pinned : Option String) : RelayResult :=
  match tryBases is200 oracle [] [] (getBasesToTry pinned) with
  | .success st body base contacted => ⟨st, .raw body, some base, contacted⟩
  | .exhausted errs contacted => ⟨502, .allFailed errs, pinned, contacted⟩

/-- `postViaAvailableBase`: same loop, but the success predicate is
`resp.ok` (any 2xx). -/
def postViaAvailableBase (oracle : String → UpstreamOutcome)
    (pinned : Option String) : RelayResult :=
  match tryBases is2xx oracle [] [] (getBasesToTry pinned) with
  | .success st body base contacted => ⟨st, .raw body, some base, contacted⟩
  | .exhausted errs contacted => ⟨502, .allFailed errs, pinned, contacted⟩

/-- A JavaScript/JSON value, as far as the handlers inspect one: the
handlers only test truthiness, `Array.isArray`, and read named fields. -/
inductive JsValue where
  | undefV
  | nullv
  | boolV (b : Bool)
  | numV (n : Int)
  | strV (s : String)
  | arrV (n : Nat)
  | objV (fields : List (String × JsValue))
deriving Repr

/-- JavaScript truthiness (`!x` in the source is `truthy x = false`). -/
def truthy : JsValue → Bool
  | .undefV => false
  | .nullv => false
  | .boolV b => b
  | .numV n => n ≠ 0
  | .strV s => s ≠ ""
  | .arrV _ => true
  | .objV _ => true

/-- `Array.isArray`. -/
def isArray : JsValue → Bool
  | .arrV _ => true
  | _ => false

/-- Property access used by the destructuring `const { f } = body`:
a missing field, or access on a non-object, yields `undefined`. -/
def getField : JsValue → String → JsValue
  | .objV fields, key => ((fields.find? (fun kv => kv.1 = key)).map (·.2)).getD .undefV
  | _, _ => .undefV

/-- What `JSON.parse` would do on the raw request body, abstracting the
parser itself: the body is empty, parses to a value, or is malformed. -/
inductive RawBody where
  | empty
  | parses (v : JsValue)
  | malformed

/-- `readJsonBody`: an empty body yields `{}`; a parse failure is caught
inside the function and also yields `{}`; otherwise the parsed value. -/
def readJsonBody : RawBody → JsValue
  | .empty => .objV []
  | .parses v => v
  | .malformed => .objV []

/-- `body || {}` in the destructuring of both handlers. -/
def orEmptyObj (v : JsValue) : JsValue :=
  if truthy v then v else .objV []

/-- `upstreamResponse.body || "\x7b\x7d"`: both handlers replace an empty
upstream body string by the two-character string of an empty JSON object
before answering the client.  The 502 and error bodies are produced by
`JSON.stringify` of non-empty objects, so the replacement never fires on
them. -/
def renderBody : ClientBody → ClientBody
  | .raw s => if s = "" then .raw "\x7b\x7d" else .raw s
  | other => other

/-- The `/api/records` route handler: read and destructure the body,
return 400 when `apiKey` or `objectKey` is falsy (no upstream call),
otherwise relay through `fetchViaAvailableBase` and forward its status
and (empty-rewritten) body. -/
def handleRecords (oracle : String → UpstreamOutcome)
    (pinned : Option String) (raw : RawBody) : RelayResult :=
  let body := orEmptyObj (readJsonBody raw)
  let apiKey := getField body "apiKey"
  let objectKey := getField body "objectKey"
  if truthy apiKey = false ∨ truthy objectKey = false then
    ⟨400, .jsonError "apiKey and objectKey are required", pinned, []⟩
  else
    let r := fetchViaAvailableBase oracle pinned
    ⟨r.status, renderBody r.body, r.pinnedAfter, r.contacted⟩

/-- The `/api/contact/list` route handler: 400 when `apiKey` or
`groupListName` is falsy or `userProfileIds` is not an array (no upstream
call), otherwise relay through `postViaAvailableBase`. -/
def handleContactList (oracle : String → UpstreamOutcome)
    (pinned : Option String) (raw : RawBody) : RelayResult :=
  let body := orEmptyObj (readJsonBody raw)
  let apiKey := getField body "apiKey"
  let groupListName := getField body "groupListName"
  let userProfileIds := getField body "userProfileIds"
  if truthy apiKey = false ∨ truthy groupListName = false ∨
      isArray userProfileIds = false then
    ⟨400, .jsonError "apiKey, groupListName, and userProfileIds are required",
      pinned, []⟩
  else
    let r := postViaAvailableBase oracle pinned
    ⟨r.status, renderBody r.body, r.pinnedAfter, r.contacted⟩

/-- Base `b` fails for success predicate `succ` under `oracle`: any HTTP
response it yields has a non-success status (a transport error always
fails). -/
def failsAt (succ : Nat → Bool) (oracle : String → UpstreamOutcome)
    (b : String) : Prop :=
  ∀ st body, oracle b = .response st body → succ st = false

theorem tryBases_exhausted (succ : Nat → Bool)
    (oracle : String → UpstreamOutcome) :
    ∀ (l : List String) (errors : List Attempt) (contacted : List String),
      (∀ b ∈ l, failsAt succ oracle b) →
      tryBases succ oracle errors contacted l
        = .exhausted (errors ++ l.map (attemptFor oracle)) (contacted ++ l)
  | [], errors, contacted, _ => by simp [tryBases]
  | b :: rest, errors, contacted, h => by
    have hb := h b (List.mem_cons_self b rest)
    have hrest : ∀ x ∈ rest, failsAt succ oracle x :=
      fun x hx => h x (List.mem_cons_of_mem _ hx)
    cases ho : oracle b with
    | response st body =>
      have hsf : succ st = false := hb st body ho
      simp [tryBases, ho, hsf,
        tryBases_exhausted succ oracle rest _ _ hrest, attemptFor]
    | transportError msg =>
      simp [tryBases, ho,
        tryBases_exhausted succ oracle rest _ _ hrest, attemptFor]

theorem tryBases_head_success (succ : Nat → Bool)
    (oracle : String → UpstreamOutcome)
    (errors : List Attempt) (contacted : List String)
    (b : String) (rest : List String) (st : Nat) (body : String)
    (ho : oracle b = .response st body) (hs : succ st = true) :
    tryBases succ oracle errors contacted (b :: rest)
      = .success st body b (contacted ++ [b]) := by
  simp [tryBases, ho, hs]

theorem tryBases_cases (succ : Nat → Bool)
    (oracle : String → UpstreamOutcome) :
    ∀ (l : List String) (errors : List Attempt) (contacted : List String),
      (∃ errs2 c2, tryBases succ oracle errors contacted l
          = .exhausted errs2 c2) ∨
      (∃ st body b c2, b ∈ l ∧ oracle b = .response st body ∧
          succ st = true ∧
          tryBases succ oracle errors contacted l = .success st body b c2)
  | [], errors, contacted => Or.inl ⟨errors, contacted, by simp [tryBases]⟩
  | b :: rest, errors, contacted => by
    cases ho : oracle b with
    | response st body =>
      cases hs : succ st with
      | true =>
        exact Or.inr ⟨st, body, b, contacted ++ [b],
          List.mem_cons_self b rest, ho, hs, by simp [tryBases, ho, hs]⟩
      | false =>
        rcases tryBases_cases succ oracle rest
            (errors ++ [⟨b, .rejected st body⟩]) (contacted ++ [b]) with
          ⟨e2, c2, heq⟩ | ⟨st2, body2, b2, c2, hmem, ho2, hs2, heq⟩
        · exact Or.inl ⟨e2, c2, by simp [tryBases, ho, hs, heq]⟩
        · exact Or.inr ⟨st2, body2, b2, c2, List.mem_cons_of_mem _ hmem,
            ho2, hs2, by simp [tryBases, ho, hs, heq]⟩
    | transportError msg =>
      rcases tryBases_cases succ oracle rest
          (errors ++ [⟨b, .transport msg⟩]) (contacted ++ [b]) with
        ⟨e2, c2, heq⟩ | ⟨st2, body2, b2, c2, hmem, ho2, hs2, heq⟩
      · exact Or.inl ⟨e2, c2, by simp [tryBases, ho, heq]⟩
      · exact Or.inr ⟨st2, body2, b2, c2, List.mem_cons_of_mem _ hmem,
          ho2, hs2, by simp [tryBases, ho, heq]⟩

theorem getBasesToTry_length (p : String) (hp : p ∈ BASE_URLS) :
    (getBasesToTry (some p)).length = BASE_URLS.length := by
  have h : ∀ q ∈ BASE_URLS,
      (getBasesToTry (some q)).length = BASE_URLS.length := by decide
  exact h p hp

/-- C1: for every pinned-host state, the host-ordering function returns
the fixed host list unchanged when no host is pinned, and otherwise the
pinned host first followed by the other hosts in original fixed order
with the pinned host excluded from the remainder. -/
theorem host_ordering_spec :
    getBasesToTry none = BASE_URLS ∧
    ∀ p ∈ BASE_URLS,
      getBasesToTry (some p)
        = p :: BASE_URLS.filter (fun base => base ≠ p) := by
  refine ⟨rfl, ?_⟩
  intro p hp
  have hne : p ≠ "" := by
    intro h
    subst h
    revert hp
    decide
  simp [getBasesToTry, hne]

theorem host_ordering_spec_witness :
    "https://api.sleekflow.io" ∈ BASE_URLS ∧
    getBasesToTry (some "https://api.sleekflow.io")
      = "https://api.sleekflow.io" ::
        BASE_URLS.filter (fun base => base ≠ "https://api.sleekflow.io") :=
  ⟨by decide, host_ordering_spec.2 "https://api.sleekflow.io" (by decide)⟩

theorem fetch_first_success (oracle : String → UpstreamOutcome)
    (pinned : Option String) (b : String) (rest : List String)
    (st : Nat) (body : String)
    (hl : getBasesToTry pinned = b :: rest)
    (ho : oracle b = .response st body) (hs : st = 200) :
    fetchViaAvailableBase oracle pinned = ⟨st, .raw body, some b, [b]⟩ := by
  unfold fetchViaAvailableBase
  rw [hl, tryBases_head_success is200 oracle [] [] b rest st body ho
    (by simp [is200, hs])]
  rfl

theorem post_first_success (oracle : String → UpstreamOutcome)
    (pinned : Option String) (b : String) (rest : List String)
    (st : Nat) (body : String)
    (hl : getBasesToTry pinned = b :: rest)
    (ho : oracle b = .response st body) (hs : is2xx st = true) :
    postViaAvailableBase oracle pinned = ⟨st, .raw body, some b, [b]⟩ := by
  unfold postViaAvailableBase
  rw [hl, tryBases_head_success is2xx oracle [] [] b rest st body ho hs]
  rfl

theorem fetch_exhausted (oracle : String → UpstreamOutcome)
    (pinned : Option String)
    (h : ∀ b ∈ getBasesToTry pinned, failsAt is200 oracle b) :
    fetchViaAvailableBase oracle pinned
      = ⟨502, .allFailed ((getBasesToTry pinned).map (attemptFor oracle)),
          pinned, getBasesToTry pinned⟩ := by
  unfold fetchViaAvailableBase
  rw [tryBases_exhausted is200 oracle (getBasesToTry pinned) [] [] h]
  simp

theorem post_exhausted (oracle : String → UpstreamOutcome)
    (pinned : Option String)
    (h : ∀ b ∈ getBasesToTry pinned, failsAt is2xx oracle b) :
    postViaAvailableBase oracle pinned
      = ⟨502, .allFailed ((getBasesToTry pinned).map (attemptFor oracle)),
          pinned, getBasesToTry pinned⟩ := by
  unfold postViaAvailableBase
  rw [tryBases_exhausted is2xx oracle (getBasesToTry pinned) [] [] h]
  simp

theorem fetch_pinned_cases (oracle : String → UpstreamOutcome)
    (pinned : Option String) :
    (fetchViaAvailableBase oracle pinned).pinnedAfter = pinned ∨
    ∃ b st body, b ∈ getBasesToTry pinned ∧ oracle b = .response st body ∧
      is200 st = true ∧
      (fetchViaAvailableBase oracle pinned).pinnedAfter = some b := by
  rcases tryBases_cases is200 oracle (getBasesToTry pinned) [] [] with
    ⟨e2, c2, heq⟩ | ⟨st, body, b, c2, hmem, ho, hs, heq⟩
  · left
    unfold fetchViaAvailableBase
    rw [heq]
  · right
    exact ⟨b, st, body, hmem, ho, hs, by
      unfold fetchViaAvailableBase
      rw [heq]⟩

theorem post_pinned_cases (oracle : String → UpstreamOutcome)
    (pinned : Option String) :
    (postViaAvailableBase oracle pinned).pinnedAfter = pinned ∨
    ∃ b st body, b ∈ getBasesToTry pinned ∧ oracle b = .response st body ∧
      is2xx st = true ∧
      (postViaAvailableBase oracle pinned).pinnedAfter = some b := by
  rcases tryBases_cases is2xx oracle (getBasesToTry pinned) [] [] with
    ⟨e2, c2, heq⟩ | ⟨st, body, b, c2, hmem, ho, hs, heq⟩
  · left
    unfold postViaAvailableBase
    rw [heq]
  · right
    exact ⟨b, st, body, hmem, ho, hs, by
      unfold postViaAvailableBase
      rw [heq]⟩

/-- C2: the record-fetch proxy succeeds (returning the response and pinning
the host) exactly on upstream status 200, while the contact-list proxy
succeeds on any 2xx; a 2xx-but-not-200 response is therefore a success for
the contact-list proxy but is recorded as a failed attempt by the
record-fetch proxy. -/
theorem success_predicates_differ :
    (∀ st, is200 st = true ↔ st = 200) ∧
    (∀ st, is2xx st = true ↔ 200 ≤ st ∧ st < 300) ∧
    ∀ (st : Nat) (body : String), 200 ≤ st → st < 300 → st ≠ 200 →
      postViaAvailableBase (fun _ => .response st body) none
        = ⟨st, .raw body, some "https://api.sleekflow.io",
            ["https://api.sleekflow.io"]⟩ ∧
      fetchViaAvailableBase (fun _ => .response st body) none
        = ⟨502,
            .allFailed (BASE_URLS.map (fun b => ⟨b, .rejected st body⟩)),
            none, BASE_URLS⟩ := by
  refine ⟨fun st => by simp [is200], fun st => by simp [is2xx], ?_⟩
  intro st body h1 h2 h3
  constructor
  · exact post_first_success (fun _ => .response st body) none
      "https://api.sleekflow.io"
      (BASE_URLS.filter (fun base => base ≠ "https://api.sleekflow.io"))
      st body (by decide) rfl (by simp [is2xx]; omega)
  · have h := fetch_exhausted (fun _ => .response st body) none
      (fun b _ => fun st' body' he => by
        cases he
        simp [is200, h3])
    simpa [attemptFor] using h

theorem success_predicates_differ_witness :
    postViaAvailableBase (fun _ => .response 204 "x") none
      = ⟨204, .raw "x", some "https://api.sleekflow.io",
          ["https://api.sleekflow.io"]⟩ ∧
    fetchViaAvailableBase (fun _ => .response 204 "x") none
      = ⟨502, .allFailed (BASE_URLS.map (fun b => ⟨b, .rejected 204 "x"⟩)),
          none, BASE_URLS⟩ :=
  success_predicates_differ.2.2 204 "x" (by decide) (by decide) (by decide)

theorem records_400_of_invalid (oracle : String → UpstreamOutcome)
    (pinned : Option String) (raw : RawBody)
    (h : truthy (getField (orEmptyObj (readJsonBody raw)) "apiKey") = false ∨
         truthy (getField (orEmptyObj (readJsonBody raw)) "objectKey") = false) :
    handleRecords oracle pinned raw
      = ⟨400, .jsonError "apiKey and objectKey are required", pinned, []⟩ := by
  rcases h with h | h <;> simp [handleRecords, h]

theorem contact_400_of_invalid (oracle : String → UpstreamOutcome)
    (pinned : Option String) (raw : RawBody)
    (h : truthy (getField (orEmptyObj (readJsonBody raw)) "apiKey") = false ∨
         truthy (getField (orEmptyObj (readJsonBody raw)) "groupListName")
           = false ∨
         isArray (getField (orEmptyObj (readJsonBody raw)) "userProfileIds")
           = false) :
    handleContactList oracle pinned raw
      = ⟨400,
          .jsonError "apiKey, groupListName, and userProfileIds are required",
          pinned, []⟩ := by
  rcases h with h | h | h <;> simp [handleContactList, h]

/-- C3: a `/api/records` request missing `apiKey` or `objectKey`, and a
`/api/contact/list` request missing `apiKey` or `groupListName` or whose
`userProfileIds` is not an array, is answered 400 with a structured JSON
error, contacts no upstream host, and leaves the pinned state unchanged. -/
theorem validation_rejects_without_upstream
    (oracle : String → UpstreamOutcome) (pinned : Option String)
    (raw : RawBody) :
    (getField (orEmptyObj (readJsonBody raw)) "apiKey" = .undefV ∨
        getField (orEmptyObj (readJsonBody raw)) "objectKey" = .undefV →
      handleRecords oracle pinned raw
        = ⟨400, .jsonError "apiKey and objectKey are required", pinned, []⟩) ∧
    (getField (orEmptyObj (readJsonBody raw)) "apiKey" = .undefV ∨
        getField (orEmptyObj (readJsonBody raw)) "groupListName" = .undefV ∨
        isArray (getField (orEmptyObj (readJsonBody raw)) "userProfileIds")
          = false →
      handleContactList oracle pinned raw
        = ⟨400,
            .jsonError "apiKey, groupListName, and userProfileIds are required",
            pinned, []⟩) := by
  constructor
  · intro h
    refine records_400_of_invalid oracle pinned raw ?_
    rcases h with h | h
    · exact Or.inl (by rw [h]; rfl)
    · exact Or.inr (by rw [h]; rfl)
  · intro h
    refine contact_400_of_invalid oracle pinned raw ?_
    rcases h with h | h | h
    · exact Or.inl (by rw [h]; rfl)
    · exact Or.inr (Or.inl (by rw [h]; rfl))
    · exact Or.inr (Or.inr h)

theorem validation_rejects_without_upstream_witness :
    handleRecords (fun _ => .response 200 "ok") none (.parses (.objV []))
      = ⟨400, .jsonError "apiKey and objectKey are required", none, []⟩ ∧
    handleContactList (fun _ => .response 200 "ok") none (.parses (.objV []))
      = ⟨400,
          .jsonError "apiKey, groupListName, and userProfileIds are required",
          none, []⟩ :=
  ⟨(validation_rejects_without_upstream _ none (.parses (.objV []))).1
      (Or.inl rfl),
   (validation_rejects_without_upstream _ none (.parses (.objV []))).2
      (Or.inl rfl)⟩

/-- C4: when every host attempt fails (non-success status or transport
error), both relay operations return status 502 carrying the
all-base-URLs-failed error with one attempt record per configured host,
in which each entry names its host and carries status+body for an
upstream rejection or an error message for a transport failure. -/
theorem all_hosts_fail_502 (oracleF oracleP : String → UpstreamOutcome)
    (pinned : Option String)
    (hpin : pinned = none ∨ ∃ p, pinned = some p ∧ p ∈ BASE_URLS)
    (hF : ∀ b ∈ getBasesToTry pinned, failsAt is200 oracleF b)
    (hP : ∀ b ∈ getBasesToTry pinned, failsAt is2xx oracleP b) :
    fetchViaAvailableBase oracleF pinned
      = ⟨502, .allFailed ((getBasesToTry pinned).map (attemptFor oracleF)),
          pinned, getBasesToTry pinned⟩ ∧
    postViaAvailableBase oracleP pinned
      = ⟨502, .allFailed ((getBasesToTry pinned).map (attemptFor oracleP)),
          pinned, getBasesToTry pinned⟩ ∧
    ((getBasesToTry pinned).map (attemptFor oracleF)).length
      = BASE_URLS.length ∧
    ((getBasesToTry pinned).map (attemptFor oracleP)).length
      = BASE_URLS.length ∧
    (∀ (oracle : String → UpstreamOutcome) (b : String),
      (attemptFor oracle b).base = b) ∧
    (∀ (oracle : String → UpstreamOutcome) (b : String) (st : Nat)
        (body : String), oracle b = .response st body →
      attemptFor oracle b = ⟨b, .rejected st body⟩) ∧
    (∀ (oracle : String → UpstreamOutcome) (b : String) (msg : String),
      oracle b = .transportError msg →
      attemptFor oracle b = ⟨b, .transport msg⟩) := by
  have hlen : (getBasesToTry pinned).length = BASE_URLS.length := by
    rcases hpin with h | ⟨p, rfl, hp⟩
    · rw [h]; rfl
    · exact getBasesToTry_length p hp
  refine ⟨fetch_exhausted oracleF pinned hF, post_exhausted oracleP pinned hP,
    ?_, ?_, ?_, ?_, ?_⟩
  · simpa using hlen
  · simpa using hlen
  · intro oracle b
    unfold attemptFor
    cases oracle b <;> rfl
  · intro oracle b st body h
    simp [attemptFor, h]
  · intro oracle b msg h
    simp [attemptFor, h]

theorem all_hosts_fail_502_witness :
    fetchViaAvailableBase (fun _ => .transportError "boom") none
      = ⟨502,
          .allFailed ((getBasesToTry none).map
            (attemptFor (fun _ => .transportError "boom"))),
          none, getBasesToTry none⟩ ∧
    ((getBasesToTry none).map
        (attemptFor (fun _ => .transportError "boom"))).length
      = BASE_URLS.length := by
  have h := all_hosts_fail_502 (fun _ => .transportError "boom")
    (fun _ => .transportError "boom") none (Or.inl rfl)
    (fun b _ st body he => nomatch he) (fun b _ st body he => nomatch he)
  exact ⟨h.1, h.2.2.1⟩

/-- C5 counterexample: a request whose body fails to parse as JSON is
answered 400 (the missing-fields validation error), not 500, because the
parse failure never escapes `readJsonBody`. -/
theorem malformed_json_counterexample :
    (handleRecords (fun _ => .response 200 "ok") none .malformed).status
      = 400 ∧
    (handleRecords (fun _ => .response 200 "ok") none .malformed).status
      ≠ 500 ∧
    (handleContactList (fun _ => .response 200 "ok") none .malformed).status
      = 400 := by
  refine ⟨rfl, by decide, rfl⟩

/-- C5 amended: a request body that fails to parse as JSON is caught
inside `readJsonBody` and replaced by the empty object, so the relay
responds 400 for the missing required fields, with no upstream calls and
the pinned state unchanged; the outermost catch's generic 500 response is
not reached by JSON parse failures. -/
theorem malformed_json_behavior (oracle : String → UpstreamOutcome)
    (pinned : Option String) :
    readJsonBody .malformed = .objV [] ∧
    handleRecords oracle pinned .malformed
      = ⟨400, .jsonError "apiKey and objectKey are required", pinned, []⟩ ∧
    handleContactList oracle pinned .malformed
      = ⟨400,
          .jsonError "apiKey, groupListName, and userProfileIds are required",
          pinned, []⟩ :=
  ⟨rfl,
   records_400_of_invalid oracle pinned .malformed (Or.inl rfl),
   contact_400_of_invalid oracle pinned .malformed (Or.inl rfl)⟩

theorem tryBases_step_fail (succ : Nat → Bool)
    (oracle : String → UpstreamOutcome)
    (errors : List Attempt) (contacted : List String)
    (b : String) (rest : List String)
    (hb : failsAt succ oracle b) :
    tryBases succ oracle errors contacted (b :: rest)
      = tryBases succ oracle (errors ++ [attemptFor oracle b])
          (contacted ++ [b]) rest := by
  cases ho : oracle b with
  | response st body => simp [tryBases, ho, hb st body ho, attemptFor]
  | transportError msg => simp [tryBases, ho, attemptFor]

theorem ne_empty_of_mem_BASE_URLS (p : String) (hp : p ∈ BASE_URLS) :
    p ≠ "" := by
  have h : ∀ q ∈ BASE_URLS, q ≠ "" := by decide
  exact h p hp

/-- C6: when the first host of the computed ordering fails and the second
succeeds, the pinned host after the call is the second host, and the
ordering computed for any subsequent call places that host first. -/
theorem failover_pins_successor (oracle : String → UpstreamOutcome)
    (pinned : Option String) (A B : String) (rest : List String)
    (st : Nat) (body : String)
    (hl : getBasesToTry pinned = A :: B :: rest)
    (hA : failsAt is200 oracle A)
    (hB : oracle B = .response st body) (hs : st = 200)
    (hBmem : B ∈ BASE_URLS) :
    (fetchViaAvailableBase oracle pinned).pinnedAfter = some B ∧
    getBasesToTry ((fetchViaAvailableBase oracle pinned).pinnedAfter)
      = B :: BASE_URLS.filter (fun base => base ≠ B) := by
  have hfetch : fetchViaAvailableBase oracle pinned
      = ⟨st, .raw body, some B, [A, B]⟩ := by
    unfold fetchViaAvailableBase
    rw [hl, tryBases_step_fail is200 oracle [] [] A (B :: rest) hA,
      tryBases_head_success is200 oracle _ _ B rest st body hB
        (by simp [is200, hs])]
    rfl
  have hne : B ≠ "" := ne_empty_of_mem_BASE_URLS B hBmem
  rw [hfetch]
  exact ⟨rfl, by simp [getBasesToTry, hne]⟩

theorem failover_pins_successor_witness :
    (fetchViaAvailableBase
        (fun b => if b = "https://api.sleekflow.io"
          then .response 503 "down" else .response 200 "ok")
        none).pinnedAfter
      = some "https://sleekflow-core-app-eus-production.azurewebsites.net" ∧
    getBasesToTry
        ((fetchViaAvailableBase
          (fun b => if b = "https://api.sleekflow.io"
            then .response 503 "down" else .response 200 "ok")
          none).pinnedAfter)
      = "https://sleekflow-core-app-eus-production.azurewebsites.net" ::
        BASE_URLS.filter (fun base =>
          base ≠ "https://sleekflow-core-app-eus-production.azurewebsites.net") :=
  failover_pins_successor
    (fun b => if b = "https://api.sleekflow.io"
      then .response 503 "down" else .response 200 "ok")
    none "https://api.sleekflow.io"
    "https://sleekflow-core-app-eus-production.azurewebsites.net"
    (BASE_URLS.drop 2) 200 "ok" rfl
    (fun st body h => by
      injection h with h1 h2
      subst h1
      rfl)
    rfl rfl (by decide)

/-- C7 counterexample: a relay call whose first host succeeds with an
empty body does not return that body unchanged to the caller: the client
receives the two-character empty-object string instead of the empty
upstream body. -/
theorem first_success_counterexample :
    (fetchViaAvailableBase (fun _ => .response 200 "") none).body
      = .raw "" ∧
    (handleRecords (fun _ => .response 200 "") none
        (.parses (.objV [("apiKey", .strV "k"), ("objectKey", .strV "o")]))).status
      = 200 ∧
    (handleRecords (fun _ => .response 200 "") none
        (.parses (.objV [("apiKey", .strV "k"), ("objectKey", .strV "o")]))).body
      = .raw "\x7b\x7d" ∧
    ClientBody.raw "\x7b\x7d" ≠ ClientBody.raw "" :=
  ⟨rfl, rfl, rfl, by decide⟩

/-- C7 amended: when the first host in the computed ordering returns
success (200 for record-fetch; any 2xx for contact-list) and validation
passed, the relay returns that host's status unchanged and its body
unchanged except that an empty body is delivered as the empty-object
string, and it contacts no subsequent host (exactly one attempt, no
retries). -/
theorem first_host_success_spec (oracle : String → UpstreamOutcome)
    (pinned : Option String) (raw : RawBody) (b : String)
    (rest : List String) (st : Nat) (body : String)
    (hl : getBasesToTry pinned = b :: rest)
    (ho : oracle b = .response st body) :
    (st = 200 →
      truthy (getField (orEmptyObj (readJsonBody raw)) "apiKey") = true →
      truthy (getField (orEmptyObj (readJsonBody raw)) "objectKey") = true →
      handleRecords oracle pinned raw
        = ⟨st, .raw (if body = "" then "\x7b\x7d" else body), some b, [b]⟩) ∧
    (is2xx st = true →
      truthy (getField (orEmptyObj (readJsonBody raw)) "apiKey") = true →
      truthy (getField (orEmptyObj (readJsonBody raw)) "groupListName")
        = true →
      isArray (getField (orEmptyObj (readJsonBody raw)) "userProfileIds")
        = true →
      handleContactList oracle pinned raw
        = ⟨st, .raw (if body = "" then "\x7b\x7d" else body), some b, [b]⟩) := by
  constructor
  · intro h200 ha hb2
    have hcond : ¬(truthy (getField (orEmptyObj (readJsonBody raw)) "apiKey")
        = false ∨
        truthy (getField (orEmptyObj (readJsonBody raw)) "objectKey")
          = false) := by
      simp [ha, hb2]
    simp only [handleRecords]
    rw [if_neg hcond,
      fetch_first_success oracle pinned b rest st body hl ho h200]
    simp only [renderBody]
    split <;> simp_all
  · intro h2xx ha hg hu
    have hcond : ¬(truthy (getField (orEmptyObj (readJsonBody raw)) "apiKey")
        = false ∨
        truthy (getField (orEmptyObj (readJsonBody raw)) "groupListName")
          = false ∨
        isArray (getField (orEmptyObj (readJsonBody raw)) "userProfileIds")
          = false) := by
      simp [ha, hg, hu]
    simp only [handleContactList]
    rw [if_neg hcond,
      post_first_success oracle pinned b rest st body hl ho h2xx]
    simp only [renderBody]
    split <;> simp_all

theorem first_host_success_spec_witness :
    handleRecords (fun _ => .response 200 "hello") none
        (.parses (.objV [("apiKey", .strV "k"), ("objectKey", .strV "o")]))
      = ⟨200, .raw "hello", some "https://api.sleekflow.io",
          ["https://api.sleekflow.io"]⟩ := by
  have h := (first_host_success_spec (fun _ => .response 200 "hello") none
    (.parses (.objV [("apiKey", .strV "k"), ("objectKey", .strV "o")]))
    "https://api.sleekflow.io" (BASE_URLS.drop 1) 200 "hello"
    rfl rfl).1 rfl rfl rfl
  simpa using h

/-- C8: pinning is idempotent: when the pinned host is a configured host
and a relay call succeeds on it, the pinned host is unchanged and the
host ordering computed for every subsequent call is unchanged. -/
theorem pinning_idempotent (oracle : String → UpstreamOutcome)
    (host : String) (body : String)
    (hmem : host ∈ BASE_URLS) (ho : oracle host = .response 200 body) :
    (fetchViaAvailableBase oracle (some host)).pinnedAfter = some host ∧
    getBasesToTry ((fetchViaAvailableBase oracle (some host)).pinnedAfter)
      = getBasesToTry (some host) := by
  have hne : host ≠ "" := ne_empty_of_mem_BASE_URLS host hmem
  have hl : getBasesToTry (some host)
      = host :: BASE_URLS.filter (fun base => base ≠ host) := by
    simp [getBasesToTry, hne]
  have hfetch := fetch_first_success oracle (some host) host
    (BASE_URLS.filter (fun base => base ≠ host)) 200 body hl ho rfl
  rw [hfetch]
  exact ⟨rfl, rfl⟩

theorem pinning_idempotent_witness :
    (fetchViaAvailableBase (fun _ => .response 200 "ok")
        (some "https://api.sleekflow.io")).pinnedAfter
      = some "https://api.sleekflow.io" ∧
    getBasesToTry
        ((fetchViaAvailableBase (fun _ => .response 200 "ok")
          (some "https://api.sleekflow.io")).pinnedAfter)
      = getBasesToTry (some "https://api.sleekflow.io") :=
  pinning_idempotent (fun _ => .response 200 "ok")
    "https://api.sleekflow.io" "ok" (by decide) rfl

/-- C9: the pinned host is unset at startup; each relay call either
leaves it unchanged or sets it to a host of the attempt ordering whose
response satisfied the call's success predicate; a call that exhausts
every host, and a call that fails validation, leave it exactly as it
was. -/
theorem pinned_lifecycle (oracleF oracleP : String → UpstreamOutcome)
    (pinned : Option String) (raw : RawBody) :
    pinnedBaseUrlInit = none ∧
    ((fetchViaAvailableBase oracleF pinned).pinnedAfter = pinned ∨
      ∃ b st body, b ∈ getBasesToTry pinned ∧
        oracleF b = .response st body ∧ is200 st = true ∧
        (fetchViaAvailableBase oracleF pinned).pinnedAfter = some b) ∧
    ((postViaAvailableBase oracleP pinned).pinnedAfter = pinned ∨
      ∃ b st body, b ∈ getBasesToTry pinned ∧
        oracleP b = .response st body ∧ is2xx st = true ∧
        (postViaAvailableBase oracleP pinned).pinnedAfter = some b) ∧
    ((∀ b ∈ getBasesToTry pinned, failsAt is200 oracleF b) →
      (fetchViaAvailableBase oracleF pinned).pinnedAfter = pinned) ∧
    ((∀ b ∈ getBasesToTry pinned, failsAt is2xx oracleP b) →
      (postViaAvailableBase oracleP pinned).pinnedAfter = pinned) ∧
    (truthy (getField (orEmptyObj (readJsonBody raw)) "apiKey") = false →
      (handleRecords oracleF pinned raw).pinnedAfter = pinned ∧
      (handleContactList oracleP pinned raw).pinnedAfter = pinned) := by
  refine ⟨rfl, fetch_pinned_cases oracleF pinned,
    post_pinned_cases oracleP pinned, ?_, ?_, ?_⟩
  · intro hf
    rw [fetch_exhausted oracleF pinned hf]
  · intro hp
    rw [post_exhausted oracleP pinned hp]
  · intro hv
    constructor
    · rw [records_400_of_invalid oracleF pinned raw (Or.inl hv)]
    · rw [contact_400_of_invalid oracleP pinned raw (Or.inl hv)]

theorem pinned_lifecycle_witness :
    (fetchViaAvailableBase (fun _ => .transportError "e")
        (some "https://api.sleekflow.io")).pinnedAfter
      = some "https://api.sleekflow.io" ∧
    (handleRecords (fun _ => .transportError "e")
        (some "https://api.sleekflow.io") (.parses (.objV []))).pinnedAfter
      = some "https://api.sleekflow.io" := by
  have h := pinned_lifecycle (fun _ => .transportError "e")
    (fun _ => .transportError "e") (some "https://api.sleekflow.io")
    (.parses (.objV []))
  exact ⟨h.2.2.2.1 (fun b _ st body he => nomatch he),
    (h.2.2.2.2.2 rfl).1⟩

/-- C10: a successful relay call whose upstream response body is the
empty string is answered with the empty-object string as body rather
than the empty body. -/
theorem empty_body_rewritten (oracle : String → UpstreamOutcome)
    (pinned : Option String) (raw : RawBody) :
    ((fetchViaAvailableBase oracle pinned).body = .raw "" →
      truthy (getField (orEmptyObj (readJsonBody raw)) "apiKey") = true →
      truthy (getField (orEmptyObj (readJsonBody raw)) "objectKey") = true →
      (handleRecords oracle pinned raw).body = .raw "\x7b\x7d") ∧
    ((postViaAvailableBase oracle pinned).body = .raw "" →
      truthy (getField (orEmptyObj (readJsonBody raw)) "apiKey") = true →
      truthy (getField (orEmptyObj (readJsonBody raw)) "groupListName")
        = true →
      isArray (getField (orEmptyObj (readJsonBody raw)) "userProfileIds")
        = true →
      (handleContactList oracle pinned raw).body = .raw "\x7b\x7d") := by
  constructor
  · intro hbody ha hb2
    have hcond : ¬(truthy (getField (orEmptyObj (readJsonBody raw)) "apiKey")
        = false ∨
        truthy (getField (orEmptyObj (readJsonBody raw)) "objectKey")
          = false) := by
      simp [ha, hb2]
    simp only [handleRecords]
    rw [if_neg hcond]
    simp [hbody, renderBody]
  · intro hbody ha hg hu
    have hcond : ¬(truthy (getField (orEmptyObj (readJsonBody raw)) "apiKey")
        = false ∨
        truthy (getField (orEmptyObj (readJsonBody raw)) "groupListName")
          = false ∨
        isArray (getField (orEmptyObj (readJsonBody raw)) "userProfileIds")
          = false) := by
      simp [ha, hg, hu]
    simp only [handleContactList]
    rw [if_neg hcond]
    simp [hbody, renderBody]

theorem empty_body_rewritten_witness :
    (handleRecords (fun _ => .response 200 "") none
        (.parses (.objV [("apiKey", .strV "k"), ("objectKey", .strV "o")]))).body
      = .raw "\x7b\x7d" :=
  (empty_body_rewritten (fun _ => .response 200 "") none
    (.parses (.objV [("apiKey", .strV "k"), ("objectKey", .strV "o")]))).1
    rfl rfl rfl

end Relay
